import Mathlib

/-!
Shallow embedding of the baseball-trajectory library (Rust sources under
`src/`): `util.rs`, `ball.rs`, `environment.rs`, `impact.rs`,
`trajectory.rs`.  Machine floating point (`f32`) is modelled by the real
numbers; the arithmetic structure of every formula is kept exactly as in
the source (order of operations, literal constants, componentwise vector
arithmetic as performed by `nalgebra`).
-/

noncomputable section

/-- Componentwise 3-vector, modelling `nalgebra::Vector3<f32>`. -/
structure Vec3 where
  x : ℝ
  y : ℝ
  z : ℝ
deriving DecidableEq

/-- Componentwise 2-vector, modelling `nalgebra::Vector2<f32>`. -/
structure Vec2 where
  x : ℝ
  y : ℝ
deriving DecidableEq

/-- `Vector3::magnitude`: Euclidean norm. -/
def Vec3.magnitude (v : Vec3) : ℝ :=
  Real.sqrt (v.x ^ 2 + v.y ^ 2 + v.z ^ 2)

/-- `util::f_to_c` (util.rs). -/
def f_to_c (fahrenheit : ℝ) : ℝ :=
  (5.0 / 9.0) * (fahrenheit - 32.0)

/-- `util::in_hg_to_mm_hg` (util.rs). -/
def in_hg_to_mm_hg (in_hg : ℝ) : ℝ :=
  in_hg * 1000.0 / 39.37

/-- `ball::Ball` (ball.rs): mass in oz, circumference in inches. -/
structure Ball where
  mass : ℝ
  circumference : ℝ

/-- `Ball::default` (ball.rs). -/
def Ball.default : Ball :=
  { mass := 5.125, circumference := 9.125 }

/-- `environment::BETA` (environment.rs). -/
def BETA : ℝ := 0.0001217

/-- `environment::Environment` (environment.rs). -/
structure Environment where
  temperature : ℝ
  elevation : ℝ
  pressure : ℝ
  relative_humidity : ℝ
  wind_speed : ℝ
  wind_direction : ℝ
  wind_height : ℝ

/-- `Environment::default` (environment.rs). -/
def Environment.default : Environment :=
  { temperature := 70.0, elevation := 15.0, pressure := 29.92
    relative_humidity := 50.0, wind_speed := 0.0, wind_direction := 0.0
    wind_height := 0.0 }

/-- `Environment::calculate_svp` (environment.rs). -/
def Environment.calculate_svp (e : Environment) : ℝ :=
  let temperature_c := f_to_c e.temperature
  4.5841 * Real.exp
    ((18.687 - temperature_c / 234.5) * temperature_c / (257.14 + temperature_c))

/-- `Environment::calculate_rho` (environment.rs). -/
def Environment.calculate_rho (e : Environment) : ℝ :=
  0.06261 * 1.2929 * (273.0
    / (f_to_c e.temperature + 273.0)
    * (in_hg_to_mm_hg e.pressure
        * Real.exp (-BETA * e.elevation)
        - 0.3783 * e.relative_humidity * e.calculate_svp / 100.0)
    / 760.0)

/-- `Environment::calculate_wind_velocity` (environment.rs). -/
def Environment.calculate_wind_velocity (e : Environment) : Vec2 :=
  let x := e.wind_speed * 1.467 * Real.sin (e.wind_direction * Real.pi / 180.0)
  let y := e.wind_speed * 1.467 * Real.cos (e.wind_direction * Real.pi / 180.0)
  { x := x, y := y }

/-- `impact::Impact` (impact.rs). -/
structure Impact where
  exit_speed : ℝ
  launch_angle : ℝ
  direction : ℝ
  back_spin : ℝ
  side_spin : ℝ
  gyro_spin : ℝ
  x : ℝ
  y : ℝ
  z : ℝ

/-- `Impact::default` (impact.rs). -/
def Impact.default : Impact :=
  { exit_speed := 103.0, launch_angle := 27.5, direction := 0.0
    back_spin := 2500.0, side_spin := 0.0, gyro_spin := 0.0
    x := 0.0, y := 2.0, z := 3.0 }

/-- `Impact::calculate_velocity` (impact.rs): returns the (x, y, z) triple. -/
def Impact.calculate_velocity (exit_speed launch_angle direction : ℝ) :
    ℝ × ℝ × ℝ :=
  let x := Real.cos (launch_angle * Real.pi / 180.0)
    * Real.sin (direction * Real.pi / 180.0)
  let y := Real.cos (launch_angle * Real.pi / 180.0)
    * Real.cos (direction * Real.pi / 180.0)
  let z := Real.sin (launch_angle * Real.pi / 180.0)
  let magnitude := 1.467 * exit_speed
  (x * magnitude, y * magnitude, z * magnitude)

/-- Modelled from the spec: `Impact::calculate_initial_velocity` is called by
`Constants::from_conditions` (trajectory.rs) but its definition is absent from
`src/`; per spec §4.2 the initial velocity vector is built from the impact's
exit speed, launch angle and direction by `calculate_velocity`. -/
def Impact.calculate_initial_velocity (i : Impact) : Vec3 :=
  let v := Impact.calculate_velocity i.exit_speed i.launch_angle i.direction
  { x := v.1, y := v.2.1, z := v.2.2 }

/-- `Impact::calculate_cartesian_spin` (impact.rs). -/
def Impact.calculate_cartesian_spin (i : Impact) (velocity : Vec3) : Vec3 :=
  let x := (i.back_spin * Real.cos (i.direction * Real.pi / 180.0)
      - i.side_spin * Real.sin (i.launch_angle * Real.pi / 180.0)
        * Real.sin (i.direction * Real.pi / 180.0)
      + i.gyro_spin * velocity.x / velocity.magnitude)
    * Real.pi / 30.0
  let y := (i.back_spin * Real.sin (i.direction * Real.pi / 180.0)
      - i.side_spin * Real.sin (i.launch_angle * Real.pi / 180.0)
        * Real.cos (i.direction * Real.pi / 180.0)
      + i.gyro_spin * velocity.y / velocity.magnitude)
    * Real.pi / 30.0
  let z := (i.side_spin * Real.cos (i.launch_angle * Real.pi / 180.0)
      + i.gyro_spin * velocity.z / velocity.magnitude)
    * Real.pi / 30.0
  { x := x, y := y, z := z }

/-- `trajectory::TAU` (trajectory.rs), in seconds. -/
def TAU : ℝ := 25.0

/-- `trajectory::STATIC_DRAG_COEFFICIENT` (trajectory.rs). -/
def STATIC_DRAG_COEFFICIENT : ℝ := 0.3008

/-- `trajectory::SPIN_DRAG_COEFFICIENT` (trajectory.rs). -/
def SPIN_DRAG_COEFFICIENT : ℝ := 0.0292

/-- `trajectory::omega_to_omega_r` (trajectory.rs). -/
def omega_to_omega_r (circumference omega : ℝ) : ℝ :=
  (circumference / 2.0 / Real.pi) * omega / 12.0

/-- `trajectory::calculate_c_0` (trajectory.rs). -/
def calculate_c_0 (mass circumference rho : ℝ) : ℝ :=
  0.07182 * rho * (5.125 / mass) * (circumference / 9.125) ^ 2

/-- `trajectory::Constants` (trajectory.rs). -/
structure Constants where
  c_0 : ℝ
  initial_position : Vec3
  initial_velocity : Vec3
  initial_spin : Vec3
  cartesian_spin : Vec3
  omega : ℝ
  omega_r : ℝ
  wind_height : ℝ
  wind_velocity : Vec2

/-- `Constants::from_conditions` (trajectory.rs). -/
def Constants.from_conditions (ball : Ball) (environment : Environment)
    (impact : Impact) : Constants :=
  let rho := environment.calculate_rho
  let c_0 := calculate_c_0 ball.mass ball.circumference rho
  let initial_position : Vec3 := { x := impact.x, y := impact.y, z := impact.z }
  let initial_velocity := impact.calculate_initial_velocity
  let initial_spin : Vec3 :=
    { x := impact.back_spin, y := impact.side_spin, z := impact.gyro_spin }
  let cartesian_spin := impact.calculate_cartesian_spin initial_velocity
  let omega := cartesian_spin.magnitude
  let omega_r := omega_to_omega_r ball.circumference omega
  let wind_velocity := environment.calculate_wind_velocity
  { c_0 := c_0, initial_position := initial_position
    initial_velocity := initial_velocity, initial_spin := initial_spin
    cartesian_spin := cartesian_spin, omega := omega, omega_r := omega_r
    wind_velocity := wind_velocity, wind_height := environment.wind_height }

/-- `trajectory::State` (trajectory.rs). -/
structure State where
  position : Vec3
  velocity : Vec3
  spin : Vec3
  hang_time : ℝ

/-- `Constants::get_initial_state` (trajectory.rs). -/
def Constants.get_initial_state (c : Constants) : State :=
  let position := c.initial_position
  let velocity := c.initial_velocity
  let spin := c.initial_spin
  { position := position, velocity := velocity, spin := spin, hang_time := 0.0 }

/-- `trajectory::Trajectory` (trajectory.rs). -/
structure Trajectory where
  ball : Ball
  environment : Environment
  impact : Impact
  constants : Constants

/-- `Trajectory::new` (trajectory.rs). -/
def Trajectory.new (ball : Ball) (environment : Environment)
    (impact : Impact) : Trajectory :=
  let constants := Constants.from_conditions ball environment impact
  { ball := ball, environment := environment, impact := impact
    constants := constants }

/-- `Trajectory::get_initial_state` (trajectory.rs). -/
def Trajectory.get_initial_state (t : Trajectory) : State :=
  t.constants.get_initial_state

/-- `trajectory::calculate_drag_coefficient` (trajectory.rs). -/
def calculate_drag_coefficient (spin : Vec3) (drag_decay : ℝ) : ℝ :=
  STATIC_DRAG_COEFFICIENT
    + SPIN_DRAG_COEFFICIENT * (spin.magnitude / 1000.0) * drag_decay

/-- `trajectory::calculate_relative_wind_speed` (trajectory.rs). -/
def calculate_relative_wind_speed (wind_velocity : Vec2) (wind_height : ℝ)
    (velocity : Vec3) (z : ℝ) : ℝ :=
  if z ≥ wind_height then
    Vec3.magnitude
      { x := velocity.x - wind_velocity.x, y := velocity.y - wind_velocity.y
        z := velocity.z }
  else
    velocity.magnitude

/-- `Trajectory::calculate_drag_acceleration` (trajectory.rs). -/
def Trajectory.calculate_drag_acceleration (t : Trajectory) (velocity : Vec3)
    (wind_velocity : Vec2) (relative_wind_speed drag_coefficient : ℝ) : Vec3 :=
  let c_0 := t.constants.c_0
  let wind_height := t.constants.wind_height
  { x := -c_0 * drag_coefficient * relative_wind_speed
      * (velocity.x - max (wind_velocity.x - wind_height) 0.0)
    y := -c_0 * drag_coefficient * relative_wind_speed
      * (velocity.y - max (wind_velocity.y - wind_height) 0.0)
    z := -c_0 * drag_coefficient * relative_wind_speed * velocity.z }

/-- `Trajectory::calculate_magnus_acceleration` (trajectory.rs). -/
def Trajectory.calculate_magnus_acceleration (t : Trajectory) (s : ℝ)
    (velocity : Vec3) (relative_wind_speed : ℝ) : Vec3 :=
  let lift_coefficient := 1.0 / (2.32 + 0.4 / s)
  let c_0 := t.constants.c_0
  let omega := t.constants.omega
  let cartesian_spin := t.constants.cartesian_spin
  let wind_velocity := t.constants.wind_velocity
  let wind_height := t.constants.wind_height
  { x := 0.0
    y := c_0 * (lift_coefficient / omega) * relative_wind_speed
      * (cartesian_spin.z * (velocity.x - 0.0)
        - cartesian_spin.x * velocity.z)
    z := c_0 * (lift_coefficient / omega) * relative_wind_speed
      * (cartesian_spin.x
          * (velocity.y - max (wind_velocity.y - wind_height) 0.0)
        - cartesian_spin.y * (velocity.x - 0.0)) }

/-- `Trajectory::calculate_acceleration` (trajectory.rs). -/
def Trajectory.calculate_acceleration (t : Trajectory) (state : State) : Vec3 :=
  let wind_velocity := t.constants.wind_velocity
  let wind_height := t.constants.wind_height
  let omega_r := t.constants.omega_r
  let velocity := state.velocity
  let relative_wind_speed :=
    calculate_relative_wind_speed wind_velocity wind_height velocity
      state.position.z
  let drag_decay :=
    Real.exp (-state.hang_time / (TAU * 146.7 / velocity.magnitude))
  let s := omega_r / relative_wind_speed * drag_decay
  let drag_coefficient := calculate_drag_coefficient state.spin drag_decay
  let drag_acceleration :=
    t.calculate_drag_acceleration velocity wind_velocity relative_wind_speed
      drag_coefficient
  let magnus_acceleration :=
    t.calculate_magnus_acceleration s velocity relative_wind_speed
  { x := drag_acceleration.x + magnus_acceleration.x
    y := drag_acceleration.y + magnus_acceleration.y
    z := drag_acceleration.z + magnus_acceleration.z - 32.17404855643 }

/-- The Magnus contribution exactly as it is evaluated inside
`Trajectory::calculate_acceleration` at a given state (same intermediate
`relative_wind_speed`, `drag_decay` and `s`). -/
def Trajectory.magnus_at_state (t : Trajectory) (state : State) : Vec3 :=
  let velocity := state.velocity
  let relative_wind_speed :=
    calculate_relative_wind_speed t.constants.wind_velocity
      t.constants.wind_height velocity state.position.z
  let drag_decay :=
    Real.exp (-state.hang_time / (TAU * 146.7 / velocity.magnitude))
  let s := t.constants.omega_r / relative_wind_speed * drag_decay
  t.calculate_magnus_acceleration s velocity relative_wind_speed

/-- `State::step` (trajectory.rs): all vector operations are componentwise. -/
def State.step (st : State) (trajectory : Trajectory) (delta : ℝ) : State :=
  let acceleration := trajectory.calculate_acceleration st
  let position : Vec3 :=
    { x := st.position.x + st.velocity.x * delta
        + acceleration.x * (delta * delta) / 2.0
      y := st.position.y + st.velocity.y * delta
        + acceleration.y * (delta * delta) / 2.0
      z := st.position.z + st.velocity.z * delta
        + acceleration.z * (delta * delta) / 2.0 }
  let velocity : Vec3 :=
    { x := st.velocity.x + acceleration.x * delta
      y := st.velocity.y + acceleration.y * delta
      z := st.velocity.z + acceleration.z * delta }
  { position := position, velocity := velocity, spin := st.spin
    hang_time := st.hang_time + delta }

/-- The sequence of states produced by repeatedly stepping from the
trajectory's initial state at a fixed time increment (the caller-driven loop
of lib.rs). -/
def runState (t : Trajectory) (delta : ℝ) : ℕ → State
  | 0 => t.get_initial_state
  | n + 1 => (runState t delta n).step t delta

/-- Claim C1: for every flight state, trajectory and time increment,
`State::step` returns the state with
`new_position = position + velocity*delta + acceleration*delta^2/2`,
`new_velocity = velocity + acceleration*delta`, the spin vector carried
unchanged, and `new_hang_time = hang_time + delta`, where the acceleration is
evaluated exactly once, from the pre-step state (single-stage scheme); the
input state is a value and is not mutated. -/
theorem C1_step_semantics (st : State) (t : Trajectory) (delta : ℝ) :
    (st.step t delta).position.x
        = st.position.x + st.velocity.x * delta
          + (t.calculate_acceleration st).x * delta ^ 2 / 2
    ∧ (st.step t delta).position.y
        = st.position.y + st.velocity.y * delta
          + (t.calculate_acceleration st).y * delta ^ 2 / 2
    ∧ (st.step t delta).position.z
        = st.position.z + st.velocity.z * delta
          + (t.calculate_acceleration st).z * delta ^ 2 / 2
    ∧ (st.step t delta).velocity.x
        = st.velocity.x + (t.calculate_acceleration st).x * delta
    ∧ (st.step t delta).velocity.y
        = st.velocity.y + (t.calculate_acceleration st).y * delta
    ∧ (st.step t delta).velocity.z
        = st.velocity.z + (t.calculate_acceleration st).z * delta
    ∧ (st.step t delta).spin = st.spin
    ∧ (st.step t delta).hang_time = st.hang_time + delta := by
  refine ⟨?_, ?_, ?_, rfl, rfl, rfl, rfl, rfl⟩
  · have h : (st.step t delta).position.x
        = st.position.x + st.velocity.x * delta
          + (t.calculate_acceleration st).x * (delta * delta) / 2.0 := rfl
    rw [h]; norm_num; ring
  · have h : (st.step t delta).position.y
        = st.position.y + st.velocity.y * delta
          + (t.calculate_acceleration st).y * (delta * delta) / 2.0 := rfl
    rw [h]; norm_num; ring
  · have h : (st.step t delta).position.z
        = st.position.z + st.velocity.z * delta
          + (t.calculate_acceleration st).z * (delta * delta) / 2.0 := rfl
    rw [h]; norm_num; ring

/-- Claim C4: the relative wind speed is the magnitude of the velocity with
the horizontal wind components subtracted (vertical untouched) when the
current height `z` is at least `wind_height`, and the raw velocity magnitude
otherwise. -/
theorem C4_relative_wind_speed (wv : Vec2) (wh : ℝ) (v : Vec3) (z : ℝ) :
    calculate_relative_wind_speed wv wh v z
      = if z ≥ wh then
          Real.sqrt ((v.x - wv.x) ^ 2 + (v.y - wv.y) ^ 2 + v.z ^ 2)
        else
          Real.sqrt (v.x ^ 2 + v.y ^ 2 + v.z ^ 2) := by
  unfold calculate_relative_wind_speed Vec3.magnitude
  split <;> rfl

/-- Claim C5: `Constants::from_conditions` computes the force-scale
coefficient `c_0` as
`0.07182 * rho * (reference_mass / mass) * (circumference / reference_circumference)^2`,
where `rho` is the environment's computed air density and the reference mass
and circumference are those of the default regulation ball (5.125, 9.125). -/
theorem C5_c0_formula (b : Ball) (e : Environment) (i : Impact) :
    (Constants.from_conditions b e i).c_0
      = 0.07182 * e.calculate_rho * (Ball.default.mass / b.mass)
        * (b.circumference / Ball.default.circumference) ^ 2 := rfl

/-- Claim C3: the drag acceleration is, per axis,
`-c_0 * drag_coefficient * relative_wind_speed * (v - max(wind - wind_height, 0))`
on the two horizontal axes and
`-c_0 * drag_coefficient * relative_wind_speed * v_z` on the vertical axis
(no wind subtraction there); and the total acceleration is drag plus Magnus
with the fixed gravitational constant 32.17404855643 subtracted from the
vertical component only. -/
theorem C3_drag_and_total_acceleration (t : Trajectory) (v : Vec3) (wv : Vec2)
    (rws dc : ℝ) (st : State) :
    (t.calculate_drag_acceleration v wv rws dc).x
        = -t.constants.c_0 * dc * rws
          * (v.x - max (wv.x - t.constants.wind_height) 0)
    ∧ (t.calculate_drag_acceleration v wv rws dc).y
        = -t.constants.c_0 * dc * rws
          * (v.y - max (wv.y - t.constants.wind_height) 0)
    ∧ (t.calculate_drag_acceleration v wv rws dc).z
        = -t.constants.c_0 * dc * rws * v.z
    ∧ t.calculate_acceleration st
        = { x := (t.calculate_drag_acceleration st.velocity
                t.constants.wind_velocity
                (calculate_relative_wind_speed t.constants.wind_velocity
                  t.constants.wind_height st.velocity st.position.z)
                (calculate_drag_coefficient st.spin
                  (Real.exp (-st.hang_time
                    / (TAU * 146.7 / st.velocity.magnitude))))).x
              + (t.calculate_magnus_acceleration
                (t.constants.omega_r
                    / calculate_relative_wind_speed t.constants.wind_velocity
                      t.constants.wind_height st.velocity st.position.z
                  * Real.exp (-st.hang_time
                    / (TAU * 146.7 / st.velocity.magnitude)))
                st.velocity
                (calculate_relative_wind_speed t.constants.wind_velocity
                  t.constants.wind_height st.velocity st.position.z)).x
            y := (t.calculate_drag_acceleration st.velocity
                t.constants.wind_velocity
                (calculate_relative_wind_speed t.constants.wind_velocity
                  t.constants.wind_height st.velocity st.position.z)
                (calculate_drag_coefficient st.spin
                  (Real.exp (-st.hang_time
                    / (TAU * 146.7 / st.velocity.magnitude))))).y
              + (t.calculate_magnus_acceleration
                (t.constants.omega_r
                    / calculate_relative_wind_speed t.constants.wind_velocity
                      t.constants.wind_height st.velocity st.position.z
                  * Real.exp (-st.hang_time
                    / (TAU * 146.7 / st.velocity.magnitude)))
                st.velocity
                (calculate_relative_wind_speed t.constants.wind_velocity
                  t.constants.wind_height st.velocity st.position.z)).y
            z := (t.calculate_drag_acceleration st.velocity
                t.constants.wind_velocity
                (calculate_relative_wind_speed t.constants.wind_velocity
                  t.constants.wind_height st.velocity st.position.z)
                (calculate_drag_coefficient st.spin
                  (Real.exp (-st.hang_time
                    / (TAU * 146.7 / st.velocity.magnitude))))).z
              + (t.calculate_magnus_acceleration
                (t.constants.omega_r
                    / calculate_relative_wind_speed t.constants.wind_velocity
                      t.constants.wind_height st.velocity st.position.z
                  * Real.exp (-st.hang_time
                    / (TAU * 146.7 / st.velocity.magnitude)))
                st.velocity
                (calculate_relative_wind_speed t.constants.wind_velocity
                  t.constants.wind_height st.velocity st.position.z)).z
              - 32.17404855643 } := by
  refine ⟨?_, ?_, rfl, rfl⟩
  · show -t.constants.c_0 * dc * rws
        * (v.x - max (wv.x - t.constants.wind_height) 0.0)
      = -t.constants.c_0 * dc * rws
        * (v.x - max (wv.x - t.constants.wind_height) 0)
    norm_num
  · show -t.constants.c_0 * dc * rws
        * (v.y - max (wv.y - t.constants.wind_height) 0.0)
      = -t.constants.c_0 * dc * rws
        * (v.y - max (wv.y - t.constants.wind_height) 0)
    norm_num

/-- Claim C2 (amended): it is the lateral (x-axis) component of the Magnus
acceleration that is identically zero for all inputs; the downrange (y)
component is in general nonzero (see the counterexample). -/
theorem C2_magnus_lateral_zero (t : Trajectory) (s : ℝ) (v : Vec3)
    (rws : ℝ) : (t.calculate_magnus_acceleration s v rws).x = 0 := by
  show (0.0 : ℝ) = 0
  norm_num

/-- Claim C10: in the Magnus acceleration the wind offset
`max(wind_y - wind_height, 0)` is subtracted only from the downrange (y)
velocity component inside the vertical (z) component's cross term; the
lateral (x) velocity component enters both the downrange and vertical terms
with exactly zero subtracted; the function takes no height argument, so no
offset depends on the ball's current height. -/
theorem C10_magnus_wind_offsets (t : Trajectory) (s : ℝ) (v : Vec3)
    (rws : ℝ) :
    (t.calculate_magnus_acceleration s v rws).y
        = t.constants.c_0 * (1 / (2.32 + 0.4 / s) / t.constants.omega) * rws
          * (t.constants.cartesian_spin.z * (v.x - 0)
            - t.constants.cartesian_spin.x * v.z)
    ∧ (t.calculate_magnus_acceleration s v rws).z
        = t.constants.c_0 * (1 / (2.32 + 0.4 / s) / t.constants.omega) * rws
          * (t.constants.cartesian_spin.x
              * (v.y - max (t.constants.wind_velocity.y
                  - t.constants.wind_height) 0)
            - t.constants.cartesian_spin.y * (v.x - 0)) := by
  constructor
  · show t.constants.c_0 * (1.0 / (2.32 + 0.4 / s) / t.constants.omega) * rws
        * (t.constants.cartesian_spin.z * (v.x - 0.0)
          - t.constants.cartesian_spin.x * v.z) = _
    norm_num
  · show t.constants.c_0 * (1.0 / (2.32 + 0.4 / s) / t.constants.omega) * rws
        * (t.constants.cartesian_spin.x
            * (v.y - max (t.constants.wind_velocity.y
                - t.constants.wind_height) 0.0)
          - t.constants.cartesian_spin.y * (v.x - 0.0)) = _
    norm_num

/-- Claim C8: `State::step` is a deterministic pure function — its output is
fully determined by the field values of its inputs, with no hidden mutable
state: two invocations on states and trajectories with identical fields
produce identical output states. -/
theorem C8_step_deterministic (s1 s2 : State) (t1 t2 : Trajectory) (d1 d2 : ℝ)
    (hp : s1.position = s2.position) (hv : s1.velocity = s2.velocity)
    (hs : s1.spin = s2.spin) (hh : s1.hang_time = s2.hang_time)
    (ht : t1 = t2) (hd : d1 = d2) :
    s1.step t1 d1 = s2.step t2 d2 := by
  have h12 : s1 = s2 := by
    cases s1; cases s2
    simp_all
  rw [h12, ht, hd]

/-- Claim C8 witness: concrete identical inputs give identical outputs. -/
theorem C8_step_deterministic_witness :
    (State.mk ⟨0, 2, 3⟩ ⟨0, 100, 50⟩ ⟨2500, 0, 0⟩ 0).step
        (Trajectory.new Ball.default Environment.default Impact.default) 0.01
      = (State.mk ⟨0, 2, 3⟩ ⟨0, 100, 50⟩ ⟨2500, 0, 0⟩ 0).step
        (Trajectory.new Ball.default Environment.default Impact.default)
        0.01 :=
  C8_step_deterministic _ _ _ _ _ _ rfl rfl rfl rfl rfl rfl

/-- Claim C9: along any trajectory the spin vector stored in every `State` is
the raw `(back_spin, side_spin, gyro_spin)` rpm triple copied from the
`Impact` (not the cartesian angular-velocity vector), and the drag
coefficient evaluated on that stored spin equals
`0.3008 + 0.0292 * (|(back_spin, side_spin, gyro_spin)| / 1000) * drag_decay`
— the magnitude of the raw rpm triple, not the cartesian angular speed. -/
theorem C9_raw_spin_drag_coefficient (b : Ball) (e : Environment) (i : Impact)
    (delta dd : ℝ) (n : ℕ) :
    (runState (Trajectory.new b e i) delta n).spin
        = { x := i.back_spin, y := i.side_spin, z := i.gyro_spin }
    ∧ calculate_drag_coefficient
          (runState (Trajectory.new b e i) delta n).spin dd
        = 0.3008
          + 0.0292
            * (Vec3.magnitude
                { x := i.back_spin, y := i.side_spin, z := i.gyro_spin }
              / 1000) * dd := by
  have hspin : ∀ m : ℕ,
      (runState (Trajectory.new b e i) delta m).spin
        = { x := i.back_spin, y := i.side_spin, z := i.gyro_spin } := by
    intro m
    induction m with
    | zero => rfl
    | succ k ih =>
      show ((runState (Trajectory.new b e i) delta k).step _ delta).spin = _
      rw [show ∀ (st : State) (t : Trajectory) (d : ℝ),
          (st.step t d).spin = st.spin from fun _ _ _ => rfl]
      exact ih
  refine ⟨hspin n, ?_⟩
  rw [hspin n]
  show STATIC_DRAG_COEFFICIENT
      + SPIN_DRAG_COEFFICIENT * (Vec3.magnitude _ / 1000.0) * dd = _
  unfold STATIC_DRAG_COEFFICIENT SPIN_DRAG_COEFFICIENT
  norm_num

/-- Claim C6: for every velocity of non-zero magnitude,
`calculate_cartesian_spin` projects back-spin and side-spin via
direction/launch-angle trigonometry, adds the gyro-spin contribution as
`gyro_spin` times the corresponding component of the normalized velocity
vector, and converts every component from rpm to rad/s by the fixed factor
pi/30; zero velocity is excluded as a precondition. -/
theorem C6_cartesian_spin (i : Impact) (v : Vec3) (h : v.magnitude ≠ 0) :
    (i.calculate_cartesian_spin v).x
        = (i.back_spin * Real.cos (i.direction * Real.pi / 180)
          - i.side_spin * Real.sin (i.launch_angle * Real.pi / 180)
            * Real.sin (i.direction * Real.pi / 180)
          + i.gyro_spin * (v.x / v.magnitude)) * (Real.pi / 30)
    ∧ (i.calculate_cartesian_spin v).y
        = (i.back_spin * Real.sin (i.direction * Real.pi / 180)
          - i.side_spin * Real.sin (i.launch_angle * Real.pi / 180)
            * Real.cos (i.direction * Real.pi / 180)
          + i.gyro_spin * (v.y / v.magnitude)) * (Real.pi / 30)
    ∧ (i.calculate_cartesian_spin v).z
        = (i.side_spin * Real.cos (i.launch_angle * Real.pi / 180)
          + i.gyro_spin * (v.z / v.magnitude)) * (Real.pi / 30) := by
  have h180 : (180.0 : ℝ) = 180 := by norm_num
  have h30 : (30.0 : ℝ) = 30 := by norm_num
  refine ⟨?_, ?_, ?_⟩
  · show (i.back_spin * Real.cos (i.direction * Real.pi / 180.0)
        - i.side_spin * Real.sin (i.launch_angle * Real.pi / 180.0)
          * Real.sin (i.direction * Real.pi / 180.0)
        + i.gyro_spin * v.x / v.magnitude) * Real.pi / 30.0 = _
    rw [h180, h30]; ring
  · show (i.back_spin * Real.sin (i.direction * Real.pi / 180.0)
        - i.side_spin * Real.sin (i.launch_angle * Real.pi / 180.0)
          * Real.cos (i.direction * Real.pi / 180.0)
        + i.gyro_spin * v.y / v.magnitude) * Real.pi / 30.0 = _
    rw [h180, h30]; ring
  · show (i.side_spin * Real.cos (i.launch_angle * Real.pi / 180.0)
        + i.gyro_spin * v.z / v.magnitude) * Real.pi / 30.0 = _
    rw [h180, h30]; ring

/-- Claim C6 witness: the default impact with the unit vertical velocity
vector satisfies the non-zero-magnitude precondition and the conclusion. -/
theorem C6_cartesian_spin_witness :
    Vec3.magnitude ⟨0, 0, 1⟩ ≠ 0
    ∧ ((Impact.default.calculate_cartesian_spin ⟨0, 0, 1⟩).x
        = (Impact.default.back_spin
            * Real.cos (Impact.default.direction * Real.pi / 180)
          - Impact.default.side_spin
            * Real.sin (Impact.default.launch_angle * Real.pi / 180)
            * Real.sin (Impact.default.direction * Real.pi / 180)
          + Impact.default.gyro_spin
            * ((Vec3.mk 0 0 1).x / Vec3.magnitude ⟨0, 0, 1⟩))
          * (Real.pi / 30)
      ∧ (Impact.default.calculate_cartesian_spin ⟨0, 0, 1⟩).y
        = (Impact.default.back_spin
            * Real.sin (Impact.default.direction * Real.pi / 180)
          - Impact.default.side_spin
            * Real.sin (Impact.default.launch_angle * Real.pi / 180)
            * Real.cos (Impact.default.direction * Real.pi / 180)
          + Impact.default.gyro_spin
            * ((Vec3.mk 0 0 1).y / Vec3.magnitude ⟨0, 0, 1⟩))
          * (Real.pi / 30)
      ∧ (Impact.default.calculate_cartesian_spin ⟨0, 0, 1⟩).z
        = (Impact.default.side_spin
            * Real.cos (Impact.default.launch_angle * Real.pi / 180)
          + Impact.default.gyro_spin
            * ((Vec3.mk 0 0 1).z / Vec3.magnitude ⟨0, 0, 1⟩))
          * (Real.pi / 30)) := by
  have h : Vec3.magnitude ⟨0, 0, 1⟩ ≠ 0 := by
    unfold Vec3.magnitude
    norm_num [Real.sqrt_one]
  exact ⟨h, C6_cartesian_spin Impact.default ⟨0, 0, 1⟩ h⟩

/-- Claim C7 counterexample: `calculate_rho` is not strictly monotone for
arbitrary field values.  With pressure 0 and relative humidity 0 the computed
density is 0 at every elevation and every temperature, so the density at the
lower elevation is not strictly larger, and the density at the higher
temperature is not strictly smaller. -/
theorem C7_rho_counterexample :
    ¬ (Environment.calculate_rho
        { temperature := 70, elevation := 0, pressure := 0
          relative_humidity := 0, wind_speed := 0, wind_direction := 0
          wind_height := 0 }
      > Environment.calculate_rho
        { temperature := 70, elevation := 15, pressure := 0
          relative_humidity := 0, wind_speed := 0, wind_direction := 0
          wind_height := 0 })
    ∧ ¬ (Environment.calculate_rho
        { temperature := 80, elevation := 15, pressure := 0
          relative_humidity := 0, wind_speed := 0, wind_direction := 0
          wind_height := 0 }
      < Environment.calculate_rho
        { temperature := 70, elevation := 15, pressure := 0
          relative_humidity := 0, wind_speed := 0, wind_direction := 0
          wind_height := 0 }) := by
  have hz : ∀ tval eval : ℝ,
      Environment.calculate_rho
        { temperature := tval, elevation := eval, pressure := 0
          relative_humidity := 0, wind_speed := 0, wind_direction := 0
          wind_height := 0 } = 0 := by
    intro tval eval
    unfold Environment.calculate_rho in_hg_to_mm_hg
    norm_num
  constructor
  · rw [hz 70 0, hz 70 15]
    exact lt_irrefl 0
  · rw [hz 80 15, hz 70 15]
    exact lt_irrefl 0

/-- Claim C7 (amended): restricted to the domain on which the empirical
formula is meaningful, `calculate_rho` is strictly monotone as claimed: for
environments agreeing on every field but elevation, if the temperature is
above the formula's absolute zero (`f_to_c T + 273 > 0`) and the pressure is
positive, a lower elevation gives strictly greater density; for environments
agreeing on every field but temperature, if both temperatures are above
absolute zero, the pressure is positive and the relative humidity is zero
(dry air, cancelling the saturation-vapor-pressure term whose empirical fit
is not monotone over unconstrained temperatures), a higher temperature gives
strictly smaller density. -/
theorem C7_rho_monotonic (env : Environment) :
    (∀ e1 e2 : ℝ, 0 < f_to_c env.temperature + 273 → 0 < env.pressure →
      e1 < e2 →
      Environment.calculate_rho { env with elevation := e2 }
        < Environment.calculate_rho { env with elevation := e1 })
    ∧ (∀ t1 t2 : ℝ, 0 < f_to_c t1 + 273 → 0 < f_to_c t2 + 273 →
      0 < env.pressure → env.relative_humidity = 0 → t1 < t2 →
      Environment.calculate_rho { env with temperature := t2 }
        < Environment.calculate_rho { env with temperature := t1 }) := by
  have hB : (0 : ℝ) < BETA := by unfold BETA; norm_num
  have hP : 0 < env.pressure → 0 < in_hg_to_mm_hg env.pressure := by
    intro hp
    unfold in_hg_to_mm_hg
    have h1 : 0 < env.pressure * 1000.0 := by nlinarith
    have h2 : (0 : ℝ) < 39.37 := by norm_num
    exact div_pos h1 h2
  constructor
  · intro e1 e2 hT hp he
    have hE : Real.exp (-BETA * e2) < Real.exp (-BETA * e1) := by
      apply Real.exp_lt_exp.mpr
      nlinarith [mul_lt_mul_of_pos_left he hB]
    have hkey : Environment.calculate_rho { env with elevation := e1 }
        - Environment.calculate_rho { env with elevation := e2 }
        = 0.06261 * 1.2929 * (273 / (f_to_c env.temperature + 273))
            * in_hg_to_mm_hg env.pressure / 760
          * (Real.exp (-BETA * e1) - Real.exp (-BETA * e2)) := by
      unfold Environment.calculate_rho Environment.calculate_svp
      dsimp only
      ring
    have hc : 0 < 0.06261 * 1.2929 * (273 / (f_to_c env.temperature + 273))
        * in_hg_to_mm_hg env.pressure / 760 := by
      have h1 : 0 < (273 : ℝ) / (f_to_c env.temperature + 273) :=
        div_pos (by norm_num) hT
      have h2 : (0 : ℝ) < 0.06261 * 1.2929 := by norm_num
      have h3 := mul_pos (mul_pos h2 h1) (hP hp)
      have h4 : (0 : ℝ) < 760 := by norm_num
      exact div_pos h3 h4
    nlinarith [mul_pos hc (sub_pos.mpr hE)]
  · intro t1 t2 hT1 hT2 hp hrh ht
    have hTc : f_to_c t1 + 273 < f_to_c t2 + 273 := by
      unfold f_to_c
      nlinarith
    have hEpos : 0 < Real.exp (-BETA * env.elevation) := Real.exp_pos _
    have hK : 0 < 0.06261 * 1.2929 * 273 * in_hg_to_mm_hg env.pressure
        * Real.exp (-BETA * env.elevation) / 760 := by
      have h1 : (0 : ℝ) < 0.06261 * 1.2929 * 273 := by norm_num
      have h2 := mul_pos (mul_pos h1 (hP hp)) hEpos
      exact div_pos h2 (by norm_num)
    have hkey : ∀ tv : ℝ,
        Environment.calculate_rho { env with temperature := tv }
          = (0.06261 * 1.2929 * 273 * in_hg_to_mm_hg env.pressure
              * Real.exp (-BETA * env.elevation) / 760)
            / (f_to_c tv + 273) := by
      intro tv
      unfold Environment.calculate_rho Environment.calculate_svp
      dsimp only
      rw [hrh]
      ring
    rw [hkey t1, hkey t2]
    exact div_lt_div_of_pos_left hK hT1 hTc

/-- Claim C7 witness: the amended monotonicity applied at concrete inputs
(70 °F vs 80 °F, elevations 0 ft vs 15 ft, pressure 29.92 inHg, dry air). -/
theorem C7_rho_monotonic_witness :
    (0 < f_to_c 70 + 273 ∧ 0 < f_to_c 80 + 273
      ∧ (0 : ℝ) < 29.92 ∧ (0 : ℝ) < 15 - 0)
    ∧ Environment.calculate_rho
        { temperature := 70, elevation := 15, pressure := 29.92
          relative_humidity := 0, wind_speed := 0, wind_direction := 0
          wind_height := 0 }
      < Environment.calculate_rho
        { temperature := 70, elevation := 0, pressure := 29.92
          relative_humidity := 0, wind_speed := 0, wind_direction := 0
          wind_height := 0 }
    ∧ Environment.calculate_rho
        { temperature := 80, elevation := 0, pressure := 29.92
          relative_humidity := 0, wind_speed := 0, wind_direction := 0
          wind_height := 0 }
      < Environment.calculate_rho
        { temperature := 70, elevation := 0, pressure := 29.92
          relative_humidity := 0, wind_speed := 0, wind_direction := 0
          wind_height := 0 } := by
  have h70 : (0 : ℝ) < f_to_c 70 + 273 := by unfold f_to_c; norm_num
  have h80 : (0 : ℝ) < f_to_c 80 + 273 := by unfold f_to_c; norm_num
  refine ⟨⟨h70, h80, by norm_num, by norm_num⟩, ?_, ?_⟩
  · exact (C7_rho_monotonic
      { temperature := 70, elevation := 0, pressure := 29.92
        relative_humidity := 0, wind_speed := 0, wind_direction := 0
        wind_height := 0 }).1 0 15 h70 (by norm_num) (by norm_num)
  · exact (C7_rho_monotonic
      { temperature := 70, elevation := 0, pressure := 29.92
        relative_humidity := 0, wind_speed := 0, wind_direction := 0
        wind_height := 0 }).2 70 80 h70 h80 (by norm_num) rfl (by norm_num)

/-- Concrete environment for the Magnus counterexample: 32 °F (0 °C),
sea level, pressure 39.37 inHg (1000 mmHg), dry air, no wind. -/
def cexEnv : Environment :=
  { temperature := 32, elevation := 0, pressure := 39.37
    relative_humidity := 0, wind_speed := 0, wind_direction := 0
    wind_height := 0 }

/-- Concrete impact for the Magnus counterexample: straight up at 100 mph
with pure back spin. -/
def cexImpact : Impact :=
  { exit_speed := 100, launch_angle := 90, direction := 0
    back_spin := 2500, side_spin := 0, gyro_spin := 0
    x := 0, y := 0, z := 0 }

/-- The constants derived from `cexEnv`/`cexImpact`, in closed form. -/
def cexC : Constants :=
  { c_0 := 0.07182 * (0.06261 * 1.2929 * (1000 / 760))
    initial_position := ⟨0, 0, 0⟩
    initial_velocity := ⟨0, 0, 146.7⟩
    initial_spin := ⟨2500, 0, 0⟩
    cartesian_spin := ⟨2500 * Real.pi / 30, 0, 0⟩
    omega := 2500 * Real.pi / 30
    omega_r := 9.125 / 2 / Real.pi * (2500 * Real.pi / 30) / 12
    wind_height := 0
    wind_velocity := ⟨0, 0⟩ }

theorem cex_initial_velocity :
    cexImpact.calculate_initial_velocity = ⟨0, 0, 146.7⟩ := by
  unfold Impact.calculate_initial_velocity Impact.calculate_velocity cexImpact
  dsimp only
  rw [show (90 : ℝ) * Real.pi / 180.0 = Real.pi / 2 by ring,
    show (0 : ℝ) * Real.pi / 180.0 = 0 by ring,
    Real.cos_pi_div_two, Real.sin_pi_div_two, Real.sin_zero, Real.cos_zero]
  simp only [Vec3.mk.injEq]
  norm_num

theorem cex_magnitude_v : Vec3.magnitude ⟨0, 0, 146.7⟩ = 146.7 := by
  unfold Vec3.magnitude
  dsimp only
  rw [show (0 : ℝ) ^ 2 + 0 ^ 2 + 146.7 ^ 2 = 146.7 ^ 2 by norm_num]
  exact Real.sqrt_sq (by norm_num)

theorem cex_cartesian_spin :
    cexImpact.calculate_cartesian_spin ⟨0, 0, 146.7⟩
      = ⟨2500 * Real.pi / 30, 0, 0⟩ := by
  unfold Impact.calculate_cartesian_spin cexImpact
  dsimp only
  rw [cex_magnitude_v,
    show (90 : ℝ) * Real.pi / 180.0 = Real.pi / 2 by ring,
    show (0 : ℝ) * Real.pi / 180.0 = 0 by ring,
    Real.cos_pi_div_two, Real.sin_pi_div_two, Real.sin_zero, Real.cos_zero]
  simp only [Vec3.mk.injEq]
  refine ⟨by ring, by ring, by ring⟩

theorem cex_omega :
    Vec3.magnitude ⟨2500 * Real.pi / 30, 0, 0⟩ = 2500 * Real.pi / 30 := by
  unfold Vec3.magnitude
  dsimp only
  rw [show (2500 * Real.pi / 30) ^ 2 + (0 : ℝ) ^ 2 + 0 ^ 2
      = (2500 * Real.pi / 30) ^ 2 by ring]
  exact Real.sqrt_sq (by positivity)

theorem cex_constants :
    Constants.from_conditions Ball.default cexEnv cexImpact = cexC := by
  unfold Constants.from_conditions
  simp only [cex_initial_velocity, cex_cartesian_spin, cex_omega]
  unfold calculate_c_0 omega_to_omega_r Environment.calculate_rho
    Environment.calculate_wind_velocity in_hg_to_mm_hg f_to_c
    Ball.default cexEnv cexImpact cexC
  dsimp only
  rw [show -BETA * (0 : ℝ) = 0 by ring, Real.exp_zero,
    show (0 : ℝ) * Real.pi / 180.0 = 0 by ring, Real.sin_zero, Real.cos_zero]
  simp only [Constants.mk.injEq, Vec3.mk.injEq, Vec2.mk.injEq]
  norm_num

/-- Claim C2 counterexample: at the concrete conditions `cexEnv`/`cexImpact`
(a ball hit straight up with pure back spin), the downrange (y) component of
the Magnus acceleration evaluated at the trajectory's initial state — with
exactly the intermediate values used inside `calculate_acceleration` — is
nonzero, refuting the claim that the downrange component is always zero (the
code zeroes the lateral x component instead). -/
theorem C2_magnus_downrange_counterexample :
    (Trajectory.magnus_at_state (Trajectory.new Ball.default cexEnv cexImpact)
      ((Trajectory.new Ball.default cexEnv cexImpact).get_initial_state)).y
      ≠ 0 := by
  have hT : Trajectory.new Ball.default cexEnv cexImpact
      = { ball := Ball.default, environment := cexEnv, impact := cexImpact
          constants := cexC } := by
    unfold Trajectory.new
    dsimp only
    rw [cex_constants]
  rw [hT]
  unfold Trajectory.magnus_at_state Trajectory.get_initial_state
    Constants.get_initial_state calculate_relative_wind_speed
    Trajectory.calculate_magnus_acceleration TAU cexC
  dsimp only
  simp only [ge_iff_le, le_refl, if_true]
  rw [show (⟨0 - 0, 0 - 0, 146.7⟩ : Vec3) = ⟨0, 0, 146.7⟩ by
    simp only [Vec3.mk.injEq]; norm_num]
  rw [cex_magnitude_v]
  rw [show -(0.0 : ℝ) / (25.0 * 146.7 / 146.7) = 0 by norm_num, Real.exp_zero]
  rw [show (9.125 / 2 / Real.pi * (2500 * Real.pi / 30) / 12 : ℝ)
      = 9.125 * 2500 / 720 by field_simp; ring]
  apply mul_ne_zero
  apply mul_ne_zero
  apply mul_ne_zero
  · norm_num
  · apply div_ne_zero
    · norm_num
    · positivity
  · norm_num
  · rw [show (0 : ℝ) * (0 - 0.0) - 2500 * Real.pi / 30 * 146.7
        = -(2500 * Real.pi / 30 * 146.7) by ring]
    exact neg_ne_zero.mpr (ne_of_gt (by positivity))

end
